import Mathlib

/-!
Verification development for the `publish-immutable-action` repository.

The registry client (`src/ghcr-client.ts`) is embedded as pure Lean functions.
Network I/O is abstracted by an `Oracle` that maps each request (keyed by the
layer digest it concerns) to the `Response` the registry returns; every HTTP
request the client issues, and every file read, is recorded in an event trace.
The embedding follows JavaScript evaluation order: `manifest.layers.map(...)`
runs its callback synchronously for each layer in order, and an async function
body runs up to its first `await` when called, so a thrown `Unknown media type`
error for a later layer leaves the already-started earlier layer uploads
running to completion in the background (there is no cancellation), while the
layers at and after the unknown one are never started.
-/

deriving instance DecidableEq for Except

namespace PublishImmutableAction

/-- A byte sequence (one natural number per byte), standing for a `Buffer`. -/
abbrev Bytes := List Nat

/-- Structure `FileMetadata` from `src/fs-helper.ts`: one locally produced archive. -/
structure FileMetadata where
  path : String
  size : Nat
  sha256 : String
deriving DecidableEq, Repr

/-- A layer descriptor (`src/oci-container.ts` `Layer`). -/
structure Layer where
  mediaType : String
  size : Nat
  digest : String
  annotations : List (String × String) := []
deriving DecidableEq, Repr

/-- An OCI manifest (`src/oci-container.ts` `Manifest`). -/
structure Manifest where
  schemaVersion : Nat
  mediaType : String
  artifactType : String
  config : Layer
  layers : List Layer
  annotations : List (String × String) := []
deriving DecidableEq, Repr

/-- The parts of an HTTP response the client reads: the status code and text,
and the `location` / `docker-content-digest` response headers. -/
structure Response where
  status : Nat
  statusText : String := ""
  location : Option String := none
  dockerContentDigest : Option String := none
deriving DecidableEq, Repr

/-- The network, as seen by the client: for each layer digest, the response to
the blob-existence HEAD, the upload-initiation POST and the blob PUT concerning
that digest; the response to the manifest PUT; and the byte contents the
filesystem returns for a path. -/
structure Oracle where
  head : String → Response
  post : String → Response
  putBlob : String → Response
  putManifest : Response
  fileContents : String → Bytes

/-- One observable action of the client: an HTTP request (with the URL it was
sent to, and for blob PUTs the request body) or a file read. -/
inductive Event where
  | head (url : String)
  | post (url : String)
  | putBlob (url : String) (body : Bytes)
  | putManifest (url : String)
  | fetchRegistryUrl (url : String)
  | fsRead (path : String)
deriving DecidableEq, Repr

/-- Whether an event is a network call (everything except a file read). -/
def Event.isNetwork : Event → Bool
  | .fsRead _ => false
  | _ => true

/-- The network calls of a trace. -/
def netCalls (evs : List Event) : List Event := evs.filter Event.isNetwork

def tarMediaType : String := "application/vnd.github.actions.package.layer.v1.tar+gzip"

def zipMediaType : String := "application/vnd.github.actions.package.layer.v1.zip"

def configMediaType : String := "application/vnd.github.actions.package.config.v1+json"

def imageManifestMediaType : String := "application/vnd.oci.image.manifest.v1+json"

/-- Whether the first list is an initial segment of the second. -/
def leadsWith : List Char → List Char → Bool
  | [], _ => true
  | _ :: _, [] => false
  | p :: ps, c :: cs => p = c && leadsWith ps cs

/-- Computes `s.startsWith pat` on strings, computed on their character lists. -/
def strLeadsWith (s pat : String) : Bool := leadsWith pat.toList s.toList

/-- Model of `new URL(rel, base).toString()` for the URL shapes this code
uses: an absolute `rel` replaces the base, a relative one is resolved against
the base origin. -/
def resolveURL (base rel : String) : String :=
  if strLeadsWith rel "http://" || strLeadsWith rel "https://" then rel
  else
    (if base.toList.getLast? = some '/' then String.mk base.toList.dropLast else base)
      ++ "/" ++ rel

/-- Error text of `ghcr-client.ts:116`. -/
def blobCheckErrorMsg (digest : String) (status : Nat) (statusText : String) : String :=
  "Unexpected response from blob check for layer " ++ digest ++ ": "
    ++ toString status ++ " " ++ statusText

/-- Error text of `ghcr-client.ts:136`. -/
def postUploadErrorMsg (status : Nat) : String :=
  "Unexpected response from POST upload " ++ toString status

/-- Error text of `ghcr-client.ts:143`. -/
def noLocationErrorMsg (endpoint digest : String) : String :=
  "No location header in response from upload post " ++ endpoint
    ++ " for layer " ++ digest

/-- Error text of `ghcr-client.ts:172`. -/
def putBlobErrorMsg (status : Nat) (digest : String) : String :=
  "Unexpected response from PUT upload " ++ toString status ++ " for layer " ++ digest

/-- Error text of `ghcr-client.ts:196`. -/
def putManifestErrorMsg (status : Nat) : String :=
  "Unexpected response from PUT manifest " ++ toString status

/-- Error text of `ghcr-client.ts:76`. -/
def unknownMediaTypeMsg (mediaType : String) : String :=
  "Unknown media type " ++ mediaType

/-- Function `uploadLayer` (`ghcr-client.ts:87-176`): HEAD the blob; on 200/202 skip the
upload, on a status other than 404 fail, otherwise POST to initiate the upload
(expecting 202 and a `location` header) and PUT the blob bytes (an empty buffer
when `file.size === 0`, the file contents read from disk otherwise), expecting
201. Returns the layer task's result and its event trace. -/
def uploadLayer (o : Oracle) (layer : Layer) (file : FileMetadata)
    (registry checkBlobEndpoint uploadBlobEndpoint : String) :
    Except String Unit × List Event :=
  let r := o.head layer.digest
  let headEv := Event.head (checkBlobEndpoint ++ layer.digest)
  if r.status = 200 ∨ r.status = 202 then
    (.ok (), [headEv])
  else if r.status ≠ 404 then
    (.error (blobCheckErrorMsg layer.digest r.status r.statusText), [headEv])
  else
    let r2 := o.post layer.digest
    let postEv := Event.post uploadBlobEndpoint
    if r2.status ≠ 202 then
      (.error (postUploadErrorMsg r2.status), [headEv, postEv])
    else
      match r2.location with
      | none => (.error (noLocationErrorMsg uploadBlobEndpoint layer.digest), [headEv, postEv])
      | some loc =>
        let uploadBlobUrl := resolveURL registry (loc ++ "?digest=" ++ layer.digest)
        let readEvs : List Event := if file.size = 0 then [] else [Event.fsRead file.path]
        let data : Bytes := if file.size = 0 then [] else o.fileContents file.path
        let evs := headEv :: postEv :: (readEvs ++ [Event.putBlob uploadBlobUrl data])
        let r3 := o.putBlob layer.digest
        if r3.status ≠ 201 then
          (.error (putBlobErrorMsg r3.status layer.digest), evs)
        else
          (.ok (), evs)

/-- The `switch (layer.mediaType)` of `ghcr-client.ts:46-78`: which
`FileMetadata` is passed to `uploadLayer` for a layer (`none` for an unknown
media type, which throws). The config layer gets the synthetic file
`{path: '', size: 0, sha256: layer.digest}`. -/
def resolveLayerFile (layer : Layer) (zipFile tarFile : FileMetadata) :
    Option FileMetadata :=
  if layer.mediaType = tarMediaType then some tarFile
  else if layer.mediaType = zipMediaType then some zipFile
  else if layer.mediaType = configMediaType then
    some { path := "", size := 0, sha256 := layer.digest }
  else none

/-- The `manifest.layers.map(...)` of `ghcr-client.ts:46-78`: starts one upload
task per layer in list order. An unknown media type throws out of the map, so
the layers after it are never started while the tasks already started keep
running (their events stay in the trace); when every media type is known, the
result collects each task's outcome. -/
def startLayerUploads (o : Oracle) (layers : List Layer) (zipFile tarFile : FileMetadata)
    (registry checkBlobEndpoint uploadBlobEndpoint : String) :
    Except String (List (Except String Unit)) × List Event :=
  match layers with
  | [] => (.ok [], [])
  | layer :: rest =>
    match resolveLayerFile layer zipFile tarFile with
    | none => (.error (unknownMediaTypeMsg layer.mediaType), [])
    | some file =>
      let (res, evs) := uploadLayer o layer file registry checkBlobEndpoint uploadBlobEndpoint
      let (restRes, restEvs) :=
        startLayerUploads o rest zipFile tarFile registry checkBlobEndpoint uploadBlobEndpoint
      match restRes with
      | .error e => (.error e, evs ++ restEvs)
      | .ok results => (.ok (res :: results), evs ++ restEvs)

/-- The rejection `await Promise.all(layerUploads)` surfaces: the first failed
layer task's error, if any. -/
def firstLayerError : List (Except String Unit) → Option String
  | [] => none
  | .error e :: _ => some e
  | .ok _ :: rest => firstLayerError rest

/-- Function `uploadManifest` (`ghcr-client.ts:178-200`): PUT the serialized manifest;
any status other than 201 is an error. The response headers are not read. -/
def uploadManifest (o : Oracle) (manifestEndpoint : String) :
    Except String Unit × List Event :=
  let r := o.putManifest
  if r.status ≠ 201 then
    (.error (putManifestErrorMsg r.status), [Event.putManifest manifestEndpoint])
  else
    (.ok (), [Event.putManifest manifestEndpoint])

/-- Function `publishOCIArtifact` (`ghcr-client.ts:12-85`): start all layer uploads,
await them all, then upload the manifest, and return the package URL
`new URL(`repository:semver`, registry)`. The result is paired with the trace
of every event the publish performs. -/
def publishOCIArtifact (o : Oracle) (token registry repository releaseId semver : String)
    (zipFile tarFile : FileMetadata) (manifest : Manifest) :
    Except String String × List Event :=
  let checkBlobEndpoint := resolveURL registry ("v2/" ++ repository ++ "/blobs/")
  let uploadBlobEndpoint := resolveURL registry ("v2/" ++ repository ++ "/blobs/uploads/")
  let manifestEndpoint := resolveURL registry ("v2/" ++ repository ++ "/manifests/" ++ semver)
  let (layersRes, layerEvs) :=
    startLayerUploads o manifest.layers zipFile tarFile registry checkBlobEndpoint
      uploadBlobEndpoint
  match layersRes with
  | .error e => (.error e, layerEvs)
  | .ok results =>
    match firstLayerError results with
    | some e => (.error e, layerEvs)
    | none =>
      let (mres, mevs) := uploadManifest o manifestEndpoint
      match mres with
      | .error e => (.error e, layerEvs ++ mevs)
      | .ok _ =>
        (.ok (resolveURL registry (repository ++ ":" ++ semver)), layerEvs ++ mevs)

/-! ### Semantic versions

`run` validates the release tag with `semver.parse(releaseTag.replace(/^v/, ''))`
(`ghcr-client.ts:249`). The `semver` npm package is an external dependency; the
acceptance of its `parse` (in its default, non-loose mode) is embedded below:
the untrimmed input may be at most 256 characters; the input is then trimmed of
whitespace and must match the package's FULL grammar, which is the semver.org
grammar with one optional leading `v` — `v? major.minor.patch` of numeric
identifiers without leading zeros, an optional dot-separated pre-release after
the first `-`, an optional dot-separated build after the first `+` — and the
three core numbers must not exceed `Number.MAX_SAFE_INTEGER`. -/

/-- An ASCII decimal digit. -/
def isDigitCh (c : Char) : Bool := '0' ≤ c && c ≤ '9'

/-- A whitespace character removed by JavaScript's `String.prototype.trim`
(the ASCII forms; the exotic Unicode space characters are not modelled). -/
def isJsWhitespace (c : Char) : Bool :=
  c = ' ' || c = '\t' || c = '\n' || c = '\r' || c = '\x0b' || c = '\x0c'

/-- Model of `String.prototype.trim` on a character list: leading and trailing
whitespace removed. -/
def jsTrim (s : List Char) : List Char :=
  ((s.dropWhile isJsWhitespace).reverse.dropWhile isJsWhitespace).reverse

/-- Numeric value of a digit list (most significant digit first). -/
def digitsToNat (s : List Char) : Nat :=
  s.foldl (fun acc c => acc * 10 + (c.toNat - '0'.toNat)) 0

/-- JavaScript's `Number.MAX_SAFE_INTEGER`, the bound node-semver places on
the major, minor and patch numbers. -/
def maxSafeInteger : Nat := 9007199254740991

/-- A character allowed in a pre-release or build identifier. -/
def isIdentCh (c : Char) : Bool :=
  isDigitCh c || ('a' ≤ c && c ≤ 'z') || ('A' ≤ c && c ≤ 'Z') || c = '-'

/-- Split a character list at every occurrence of `c` (the separators are
dropped; `n+1` separators give `n+2` pieces). -/
def splitOnCh (c : Char) : List Char → List (List Char)
  | [] => [[]]
  | x :: xs =>
    let rest := splitOnCh c xs
    if x = c then [] :: rest
    else
      match rest with
      | [] => [[x]]
      | piece :: pieces => (x :: piece) :: pieces

/-- Split a character list at the first occurrence of `c`, if any. -/
def splitFirstCh (c : Char) : List Char → Option (List Char × List Char)
  | [] => none
  | x :: xs =>
    if x = c then some ([], xs)
    else
      match splitFirstCh c xs with
      | none => none
      | some (l, r) => some (x :: l, r)

/-- A numeric identifier: digits only, no leading zero unless it is `0`. -/
def numericIdentValid (s : List Char) : Bool :=
  !s.isEmpty && s.all isDigitCh && (s.length = 1 || s.head? != some '0')

/-- A pre-release identifier: alphanumeric/hyphen, non-empty, and when it is
all digits it must not have a leading zero. -/
def prereleaseIdentValid (s : List Char) : Bool :=
  !s.isEmpty && s.all isIdentCh &&
    (!(s.all isDigitCh) || s.length = 1 || s.head? != some '0')

/-- A build identifier: alphanumeric/hyphen, non-empty. -/
def buildIdentValid (s : List Char) : Bool :=
  !s.isEmpty && s.all isIdentCh

/-- The `major.minor.patch` core: exactly three numeric identifiers, each at
most `Number.MAX_SAFE_INTEGER`. -/
def mainVersionValid (s : List Char) : Bool :=
  match splitOnCh '.' s with
  | [ma, mi, pa] =>
    numericIdentValid ma && numericIdentValid mi && numericIdentValid pa &&
    digitsToNat ma ≤ maxSafeInteger && digitsToNat mi ≤ maxSafeInteger &&
    digitsToNat pa ≤ maxSafeInteger
  | _ => false

/-- The part before any `+`: the three-part core, optionally followed at the
first `-` by a dot-separated pre-release (later hyphens belong to the
pre-release identifiers). -/
def coreVersionValid (s : List Char) : Bool :=
  match splitFirstCh '-' s with
  | none => mainVersionValid s
  | some (v, pre) =>
    mainVersionValid v && (splitOnCh '.' pre).all prereleaseIdentValid

/-- Whether npm `semver.parse` accepts the string: at most 256 characters
before trimming; after trimming whitespace and skipping one optional leading
`v`, the core version, then an optional build part after the first `+` (build
identifiers cannot contain a further `+`). -/
def semverValid (s : String) : Bool :=
  s.toList.length ≤ 256 &&
    (let trimmed := jsTrim s.toList
     let unprefixed :=
       match trimmed with
       | 'v' :: rest => rest
       | other => other
     match splitFirstCh '+' unprefixed with
     | none => coreVersionValid unprefixed
     | some (core, build) =>
       coreVersionValid core && (splitOnCh '.' build).all buildIdentValid)

/-- Model of `releaseTag.replace(/^v/, '')` (`ghcr-client.ts:249`): removes one leading
`v` when present, and nothing else. -/
def stripLeadingV (s : String) : String :=
  match s.toList with
  | 'v' :: rest => String.mk rest
  | _ => s

/-! ### Manifest construction and serialization -/

/-- Modelled from the spec: the config-layer descriptor built by
`src/oci-container.ts`, a file absent from `src/`. Following §4.1 and the
manifest the repository's client tests pair with the client embedded here, it
describes the empty config blob (size 0, the sha256 of the empty byte string)
with a `title` annotation. -/
def emptyConfigLayer : Layer :=
  { mediaType := configMediaType
    size := 0
    digest := "sha256:e3b0c44298fc1c149afbf4c8996fb92427ae41e4649b934ca495991b7852b855"
    annotations := [("org.opencontainers.image.title", "config.json")] }

/-- Modelled from the spec: `buildLayer` of `src/oci-container.ts` (absent from
`src/`), §4.1: size and digest taken from the file, `title` annotation from its
path. -/
def buildLayer (mediaType : String) (file : FileMetadata) : Layer :=
  { mediaType := mediaType
    size := file.size
    digest := "sha256:" ++ file.sha256
    annotations := [("org.opencontainers.image.title", file.path)] }

/-- Modelled from the spec: `createActionPackageManifest` of
`src/oci-container.ts` (absent from `src/`), §4.1: config layer, tar layer,
zip layer in that fixed order, OCI image-manifest media type, and the creation
timestamp / per-archive digest / package-type annotations of §6. -/
def createActionPackageManifest (tarFile zipFile : FileMetadata)
    (repository version created : String) : Manifest :=
  { schemaVersion := 2
    mediaType := imageManifestMediaType
    artifactType := imageManifestMediaType
    config := emptyConfigLayer
    layers := [emptyConfigLayer, buildLayer tarMediaType tarFile, buildLayer zipMediaType zipFile]
    annotations := [("org.opencontainers.image.created", created),
                    ("action.tar.gz.digest", tarFile.sha256),
                    ("action.zip.digest", zipFile.sha256),
                    ("com.github.package.type", "actions_oci_pkg")] }

/-- A JSON string literal (the strings occurring here need no escaping). -/
def jsonStr (s : String) : String := "\"" ++ s ++ "\""

/-- JSON object text for an annotation map, in insertion order. -/
def serializeAnnotations (l : List (String × String)) : String :=
  "\x7b" ++ String.intercalate ","
    (l.map (fun p => jsonStr p.1 ++ ":" ++ jsonStr p.2)) ++ "\x7d"

/-- Serialization `JSON.stringify` of a layer descriptor, fields in declaration order. -/
def serializeLayer (l : Layer) : String :=
  "\x7b" ++ jsonStr "mediaType" ++ ":" ++ jsonStr l.mediaType
    ++ "," ++ jsonStr "size" ++ ":" ++ toString l.size
    ++ "," ++ jsonStr "digest" ++ ":" ++ jsonStr l.digest
    ++ "," ++ jsonStr "annotations" ++ ":" ++ serializeAnnotations l.annotations
    ++ "\x7d"

/-- Serialization `JSON.stringify(manifest)`, fields in declaration order. -/
def serializeManifest (m : Manifest) : String :=
  "\x7b" ++ jsonStr "schemaVersion" ++ ":" ++ toString m.schemaVersion
    ++ "," ++ jsonStr "mediaType" ++ ":" ++ jsonStr m.mediaType
    ++ "," ++ jsonStr "artifactType" ++ ":" ++ jsonStr m.artifactType
    ++ "," ++ jsonStr "config" ++ ":" ++ serializeLayer m.config
    ++ "," ++ jsonStr "layers" ++ ":["
    ++ String.intercalate "," (m.layers.map serializeLayer) ++ "]"
    ++ "," ++ jsonStr "annotations" ++ ":" ++ serializeAnnotations m.annotations
    ++ "\x7d"

/-! ### The orchestrator `run` (`ghcr-client.ts:228-328`) -/

/-- The ambient context and collaborators `run` reads: environment variables,
the GitHub event payload, the fs-helper collaborators (each `Except` value is
the collaborator's return value or the error it throws), the crypto hash, and
the network. -/
structure RunEnv where
  repository : String
  eventName : String
  releaseId : String
  releaseTag : String
  token : String
  getConsolidatedDirectory : Except String (String × Bool)
  isActionRepo : String → Bool
  createTempDir : Except String String
  createArchives : Except String (FileMetadata × FileMetadata)
  sha256Hex : String → String
  now : String
  apiBaseUrl : String
  registryFetch : Except String String
  net : Oracle

/-- What a completed `run` did: the outputs it set, the `core.setFailed`
message if any, the temp directories it tracked in `tmpDirs`, the directories
the `finally` block removed, and the network/filesystem events. -/
structure RunResult where
  outputs : List (String × String)
  failed : Option String
  tracked : List String
  removed : List String
  events : List Event
deriving DecidableEq, Repr

/-- The `finally` block (`ghcr-client.ts:320-327`): every tracked temp
directory whose path is not the empty string is removed. -/
def cleanupDirs (tmpDirs : List String) : List String :=
  tmpDirs.filter (fun d => d != "")

/-- Failure text of `ghcr-client.ts:251-253`. -/
def invalidSemverMsg (releaseTag : String) : String :=
  releaseTag ++ " is not a valid semantic version, and so cannot be uploaded as an Immutable Action."

/-- Failure text of `ghcr-client.ts:266-268`. -/
def actionYmlMsg : String :=
  "action.y(a)ml not found. Action packages can be created only for action repositories."

/-- Function `run` (`ghcr-client.ts:228-328`): validate repository, event, and release
tag; consolidate and stage; archive; build the manifest and hash it; fetch the
container registry URL; publish; set the three outputs. Any stage's failure
message reaches `core.setFailed` and ends the run; the `finally` cleanup always
runs on the directories tracked so far. -/
def run (env : RunEnv) : RunResult :=
  if env.repository = "" then
    { outputs := [], failed := some "Could not find Repository.",
      tracked := [], removed := [], events := [] }
  else if env.eventName ≠ "release" then
    { outputs := [], failed := some "Please ensure you have the workflow trigger as release.",
      tracked := [], removed := [], events := [] }
  else if ¬ semverValid (stripLeadingV env.releaseTag) then
    { outputs := [], failed := some (invalidSemverMsg env.releaseTag),
      tracked := [], removed := [], events := [] }
  else
    match env.getConsolidatedDirectory with
    | .error e =>
      { outputs := [], failed := some e, tracked := [], removed := [], events := [] }
    | .ok (consolidatedPath, needToCleanUpDir) =>
      let dirs0 := if needToCleanUpDir then [consolidatedPath] else []
      if ¬ env.isActionRepo consolidatedPath then
        { outputs := [], failed := some actionYmlMsg,
          tracked := dirs0, removed := cleanupDirs dirs0, events := [] }
      else
        match env.createTempDir with
        | .error e =>
          { outputs := [], failed := some e,
            tracked := dirs0, removed := cleanupDirs dirs0, events := [] }
        | .ok archiveDir =>
          let dirs := dirs0 ++ [archiveDir]
          match env.createArchives with
          | .error e =>
            { outputs := [], failed := some e,
              tracked := dirs, removed := cleanupDirs dirs, events := [] }
          | .ok (tarFile, zipFile) =>
            let version := stripLeadingV env.releaseTag
            let manifest := createActionPackageManifest tarFile zipFile env.repository version env.now
            let manifestHash := env.sha256Hex (serializeManifest manifest)
            let fetchEv := Event.fetchRegistryUrl (env.apiBaseUrl ++ "/packages/container-registry-url")
            match env.registryFetch with
            | .error statusText =>
              { outputs := [], failed := some ("Failed to fetch status page: " ++ statusText),
                tracked := dirs, removed := cleanupDirs dirs, events := [fetchEv] }
            | .ok registryURL =>
              let (pres, pevs) := publishOCIArtifact env.net env.token registryURL
                env.repository env.releaseId version zipFile tarFile manifest
              match pres with
              | .error e =>
                { outputs := [], failed := some e,
                  tracked := dirs, removed := cleanupDirs dirs, events := fetchEv :: pevs }
              | .ok packageURL =>
                { outputs := [("package-url", packageURL),
                              ("package-manifest", serializeManifest manifest),
                              ("package-manifest-sha", "sha256:" ++ manifestHash)],
                  failed := none,
                  tracked := dirs, removed := cleanupDirs dirs, events := fetchEv :: pevs }

/-! ### The digest-verifying client and the current orchestrator

The repository also contains the later registry client
(`uploadOCIImageManifest`) and the current orchestrator (`src/main.ts`); both
are absent from `src/` and present only through their tests, so they are
modelled from the spec below (§4.2 step 5, §4.3). -/

/-- The digest-mismatch failure text, stating both digests (spec §4.2 step 5 /
§7 `DigestMismatchError`; phrasing as in the repository's client tests). -/
def digestMismatchMsg (expected actual : String) : String :=
  "Digest mismatch. Expected " ++ expected ++ ", got " ++ actual ++ "."

/-- Modelled from the spec: step 5 of §4.2 as implemented by
`uploadOCIImageManifest` of `src/ghcr-client.ts`, which is absent from `src/`.
After the manifest PUT: a status other than 201 is fatal; otherwise the
`docker-content-digest` response header is read and compared byte-for-byte
against the digest computed before any upload began — equality succeeds, any
inequality is fatal with a message stating both digests. -/
def verifyManifestDigest (expectedDigest : String) (r : Response) : Except String String :=
  if r.status ≠ 201 then .error (putManifestErrorMsg r.status)
  else
    let actual := r.dockerContentDigest.getD ""
    if actual = expectedDigest then .ok actual
    else .error (digestMismatchMsg expectedDigest actual)

/-- Modelled from the spec: the publish with post-publish digest verification
(§4.2 steps 1-5): the blob phase of the embedded client, then the manifest PUT
whose `docker-content-digest` is verified against `expectedDigest`. On success
it returns the package URL and the published digest. -/
def publishOCIArtifactVerified (o : Oracle)
    (token registry repository releaseId semver : String)
    (zipFile tarFile : FileMetadata) (manifest : Manifest) (expectedDigest : String) :
    Except String (String × String) × List Event :=
  let checkBlobEndpoint := resolveURL registry ("v2/" ++ repository ++ "/blobs/")
  let uploadBlobEndpoint := resolveURL registry ("v2/" ++ repository ++ "/blobs/uploads/")
  let manifestEndpoint := resolveURL registry ("v2/" ++ repository ++ "/manifests/" ++ semver)
  let (layersRes, layerEvs) :=
    startLayerUploads o manifest.layers zipFile tarFile registry checkBlobEndpoint
      uploadBlobEndpoint
  match layersRes with
  | .error e => (.error e, layerEvs)
  | .ok results =>
    match firstLayerError results with
    | some e => (.error e, layerEvs)
    | none =>
      let mEv := Event.putManifest manifestEndpoint
      match verifyManifestDigest expectedDigest o.putManifest with
      | .error e => (.error e, layerEvs ++ [mEv])
      | .ok actual =>
        (.ok (resolveURL registry (repository ++ ":" ++ semver), actual), layerEvs ++ [mEv])

/-- An attestation bundle (§3). -/
structure AttestationBundle where
  attestationID : String
  certificate : String
  bundle : String
deriving DecidableEq, Repr

/-- The collaborators of the current orchestrator (`src/main.ts`): the
resolved options' enterprise flag and ref, the checkout guard, the combined
staging/archiving collaborators, the serialized manifest and its locally
computed digest, the registry publish, and the attestation generate/attach
collaborators (each `Except` is a return value or thrown error). -/
structure MainEnv where
  isEnterprise : Bool
  ref : String
  ensureTagAndRefCheckedOut : Except String Unit
  stageAndArchive : Except String (FileMetadata × FileMetadata)
  serializedManifest : String
  expectedDigest : String
  publish : Except String (String × String)
  generateAttestation : Except String AttestationBundle
  attachArtifact : Except String (String × String)

/-- What a completed current-orchestrator run did: the outputs set, the
failure message if any, and whether attestation generation / attachment were
invoked. -/
structure MainResult where
  outputs : List (String × String)
  failed : Option String
  attestGenerated : Bool
  attestAttached : Bool
deriving DecidableEq, Repr

/-- The `<tag>` part of a `refs/tags/<tag>` ref. -/
def refTagName (ref : String) : String :=
  String.mk (ref.toList.drop "refs/tags/".toList.length)

/-- Failure text of the current orchestrator's ref validation (its tests:
`The ref <ref> is not a valid tag reference.`). -/
def invalidRefMsg (ref : String) : String :=
  "The ref " ++ ref ++ " is not a valid tag reference."

/-- Failure text of the current orchestrator's tag validation (its tests). -/
def invalidSemverTagMsg (tag : String) : String :=
  tag ++ " is not a valid semantic version tag, and so cannot be uploaded to the action package."

/-- Failure text of the current orchestrator's returned-digest check (its
tests). -/
def unexpectedDigestMsg (expected actual : String) : String :=
  "Unexpected digest returned for manifest. Expected " ++ expected ++ ", got " ++ actual

/-- Modelled from the spec: the current orchestrator `run` of `src/main.ts`,
absent from `src/` and present only through its tests. §4.3: validate the ref
(`refs/tags/<tag>`, the tag a semantic version after stripping one leading
`v`), ensure checkout, stage and archive, publish, check the returned digest,
then — unless running in an enterprise context, where attestation is skipped
entirely — generate and attach the attestation; finally emit `package-url`,
`package-manifest`, `package-manifest-sha`, and, when attestation ran,
`attestation-manifest-sha` and `attestation-url`. Any failure surfaces as one
message and no outputs. -/
def runMain (env : MainEnv) : MainResult :=
  if ¬ strLeadsWith env.ref "refs/tags/" then
    { outputs := [], failed := some (invalidRefMsg env.ref),
      attestGenerated := false, attestAttached := false }
  else
    let tag := refTagName env.ref
    if ¬ semverValid (stripLeadingV tag) then
      { outputs := [], failed := some (invalidSemverTagMsg tag),
        attestGenerated := false, attestAttached := false }
    else
      match env.ensureTagAndRefCheckedOut with
      | .error e =>
        { outputs := [], failed := some e,
          attestGenerated := false, attestAttached := false }
      | .ok _ =>
        match env.stageAndArchive with
        | .error e =>
          { outputs := [], failed := some e,
            attestGenerated := false, attestAttached := false }
        | .ok _archives =>
          match env.publish with
          | .error e =>
            { outputs := [], failed := some e,
              attestGenerated := false, attestAttached := false }
          | .ok (packageURL, publishedDigest) =>
            if publishedDigest ≠ env.expectedDigest then
              { outputs := [],
                failed := some (unexpectedDigestMsg env.expectedDigest publishedDigest),
                attestGenerated := false, attestAttached := false }
            else
              let baseOutputs := [("package-url", packageURL),
                                  ("package-manifest", env.serializedManifest),
                                  ("package-manifest-sha", env.expectedDigest)]
              if env.isEnterprise then
                { outputs := baseOutputs, failed := none,
                  attestGenerated := false, attestAttached := false }
              else
                match env.generateAttestation with
                | .error e =>
                  { outputs := [], failed := some e,
                    attestGenerated := true, attestAttached := false }
                | .ok _bundle =>
                  match env.attachArtifact with
                  | .error e =>
                    { outputs := [], failed := some e,
                      attestGenerated := true, attestAttached := true }
                  | .ok (attestationDigest, attestationUrl) =>
                    { outputs := baseOutputs ++
                        [("attestation-manifest-sha", attestationDigest),
                         ("attestation-url", attestationUrl)],
                      failed := none,
                      attestGenerated := true, attestAttached := true }

/-! ### Event classification and test fixtures -/

/-- Whether an event is a blob-existence HEAD request. -/
def Event.isHead : Event → Bool
  | .head _ => true
  | _ => false

/-- Whether an event is an upload-initiation POST request. -/
def Event.isPost : Event → Bool
  | .post _ => true
  | _ => false

/-- Whether an event is a blob PUT request. -/
def Event.isPutBlob : Event → Bool
  | .putBlob _ _ => true
  | _ => false

/-- Whether an event is a manifest PUT request. -/
def Event.isPutManifest : Event → Bool
  | .putManifest _ => true
  | _ => false

/-- Number of HEAD requests in a trace. -/
def countHead (evs : List Event) : Nat := (evs.filter Event.isHead).length

/-- Number of POST requests in a trace. -/
def countPost (evs : List Event) : Nat := (evs.filter Event.isPost).length

/-- Number of blob PUT requests in a trace. -/
def countPutBlob (evs : List Event) : Nat := (evs.filter Event.isPutBlob).length

/-- Number of manifest PUT requests in a trace. -/
def countPutManifest (evs : List Event) : Nat := (evs.filter Event.isPutManifest).length

/-- The UTF-8 bytes of the literal two-byte JSON object (an opening and a
closing brace). -/
def emptyObjectBytes : Bytes := "\x7b\x7d".toList.map Char.toNat

/-- Sample zip archive metadata, as in the repository's client tests. -/
def sampleZip : FileMetadata := ⟨"test-repo-1.2.3.zip", 123, "zipsha"⟩

/-- Sample tar archive metadata. -/
def sampleTar : FileMetadata := ⟨"test-repo-1.2.3.tar.gz", 456, "tarsha"⟩

/-- Sample config layer. -/
def sampleConfigLayer : Layer :=
  { mediaType := configMediaType, size := 0, digest := "sha256:cfgsha" }

/-- Sample tar layer. -/
def sampleTarLayer : Layer :=
  { mediaType := tarMediaType, size := 456, digest := "sha256:tarsha" }

/-- Sample zip layer. -/
def sampleZipLayer : Layer :=
  { mediaType := zipMediaType, size := 123, digest := "sha256:zipsha" }

/-- A sample three-layer manifest (config, tar, zip). -/
def sampleManifest : Manifest :=
  { schemaVersion := 2
    mediaType := imageManifestMediaType
    artifactType := imageManifestMediaType
    config := sampleConfigLayer
    layers := [sampleConfigLayer, sampleTarLayer, sampleZipLayer] }

/-- A registry where no blob exists yet and every upload succeeds. -/
def allFreshOracle : Oracle :=
  { head := fun _ => { status := 404 }
    post := fun _ => { status := 202,
                       location := some "https://ghcr.io/v2/test-org/test-repo/blobs/uploads/1" }
    putBlob := fun _ => { status := 201 }
    putManifest := { status := 201, dockerContentDigest := some "sha256:manifestsha" }
    fileContents := fun _ => [1, 2, 3] }

/-- A registry where the config blob already exists, the other blobs do not,
and every upload succeeds. -/
def mixedOracle : Oracle :=
  { allFreshOracle with
    head := fun d => if d = "sha256:cfgsha" then { status := 200 } else { status := 404 } }

/-- A layer whose media type is none of the three known ones, as in the
repository's client tests. -/
def badMediaLayer : Layer :=
  { mediaType := "application/json", size := 1, digest := "sha256:bad" }

/-- A manifest whose second layer has an unknown media type. -/
def badManifest : Manifest :=
  { sampleManifest with layers := [sampleTarLayer, badMediaLayer] }

/-- A registry whose manifest PUT succeeds but confirms a digest different
from the locally computed one. -/
def mismatchOracle : Oracle :=
  { allFreshOracle with
    putManifest := { status := 201, dockerContentDigest := some "sha256:other" } }

/-- A run environment whose release tag `v1.0` is not a semantic version and
whose collaborators would all succeed. -/
def invalidTagEnv : RunEnv :=
  { repository := "test-org/test-repo", eventName := "release", releaseId := "123"
    releaseTag := "v1.0", token := "token"
    getConsolidatedDirectory := .ok ("/tmp/consolidated", true)
    isActionRepo := fun _ => true
    createTempDir := .ok "/tmp/archive"
    createArchives := .ok (sampleTar, sampleZip)
    sha256Hex := fun _ => "manifesthash", now := "2021-01-01T00:00:00.000Z"
    apiBaseUrl := "https://api.github.com"
    registryFetch := .ok "https://ghcr.io"
    net := allFreshOracle }

/-- A run environment with tag `v1.2.3` whose publish fails at the manifest
PUT, exercising cleanup after a mid-run failure. -/
def failingPublishEnv : RunEnv :=
  { invalidTagEnv with
    releaseTag := "v1.2.3"
    net := { allFreshOracle with putManifest := { status := 500 } } }

/-! ### Helper lemmas -/

/-- A layer upload's trace never contains a manifest PUT. -/
theorem uploadLayer_no_putManifest (o : Oracle) (layer : Layer) (file : FileMetadata)
    (registry checkEp uploadEp : String) (u : String) :
    Event.putManifest u ∉ (uploadLayer o layer file registry checkEp uploadEp).2 := by
  unfold uploadLayer
  rcases h : (o.post layer.digest).location with _ | loc <;>
    simp only [h] <;> split_ifs <;> simp

/-- The layer phase's trace never contains a manifest PUT. -/
theorem startLayerUploads_no_putManifest (o : Oracle) (layers : List Layer)
    (zipFile tarFile : FileMetadata) (registry checkEp uploadEp : String) (u : String) :
    Event.putManifest u ∉ (startLayerUploads o layers zipFile tarFile registry checkEp uploadEp).2 := by
  induction layers with
  | nil => simp [startLayerUploads]
  | cons layer rest ih =>
    unfold startLayerUploads
    split
    · simp
    · simp only []
      split
      · simp_all [uploadLayer_no_putManifest o layer _ registry checkEp uploadEp u]
      · simp_all [uploadLayer_no_putManifest o layer _ registry checkEp uploadEp u]

/-- When `Promise.all` surfaces no error, every layer task succeeded. -/
theorem firstLayerError_eq_none {results : List (Except String Unit)}
    (h : firstLayerError results = none) : ∀ r ∈ results, r = .ok () := by
  induction results with
  | nil => simp
  | cons r rest ih =>
    cases r with
    | error e => simp [firstLayerError] at h
    | ok v =>
      intro x hx
      rcases List.mem_cons.mp hx with hx | hx
      · simp [hx]
      · exact ih (by simpa [firstLayerError] using h) x hx

/-- When the HEAD existence check answers 200 or 202 the layer task succeeds
immediately: its whole trace is the HEAD request. -/
theorem uploadLayer_skip (o : Oracle) (layer : Layer) (file : FileMetadata)
    (registry checkEp uploadEp : String)
    (h : (o.head layer.digest).status = 200 ∨ (o.head layer.digest).status = 202) :
    uploadLayer o layer file registry checkEp uploadEp =
      (.ok (), [Event.head (checkEp ++ layer.digest)]) := by
  unfold uploadLayer
  rw [if_pos h]

/-- When the HEAD answers 404 and the POST and blob PUT succeed, the layer
task succeeds with the trace HEAD, POST, (file read), blob PUT. -/
theorem uploadLayer_fresh (o : Oracle) (layer : Layer) (file : FileMetadata)
    (registry checkEp uploadEp loc : String)
    (h404 : (o.head layer.digest).status = 404)
    (hpost : (o.post layer.digest).status = 202)
    (hloc : (o.post layer.digest).location = some loc)
    (hput : (o.putBlob layer.digest).status = 201) :
    uploadLayer o layer file registry checkEp uploadEp =
      (.ok (), Event.head (checkEp ++ layer.digest) :: Event.post uploadEp ::
        ((if file.size = 0 then [] else [Event.fsRead file.path]) ++
         [Event.putBlob (resolveURL registry (loc ++ "?digest=" ++ layer.digest))
            (if file.size = 0 then [] else o.fileContents file.path)])) := by
  unfold uploadLayer
  simp [h404, hpost, hloc, hput]

/-- C4: For every layer, a blob-existence HEAD answering 200 or 202 makes the
task skip the upload entirely — its only request is the HEAD, with no POST and
no blob PUT; a 404 makes the upload proceed (the initiation POST is issued);
any other status fails the task with the error citing the unexpected status. -/
theorem blob_check_dispatch (o : Oracle) (layer : Layer) (file : FileMetadata)
    (registry checkEp uploadEp : String) :
    ((o.head layer.digest).status = 200 ∨ (o.head layer.digest).status = 202 →
      uploadLayer o layer file registry checkEp uploadEp =
        (.ok (), [Event.head (checkEp ++ layer.digest)])) ∧
    ((o.head layer.digest).status = 404 →
      Event.post uploadEp ∈ (uploadLayer o layer file registry checkEp uploadEp).2) ∧
    (¬ ((o.head layer.digest).status = 200 ∨ (o.head layer.digest).status = 202) →
      (o.head layer.digest).status ≠ 404 →
      uploadLayer o layer file registry checkEp uploadEp =
        (.error (blobCheckErrorMsg layer.digest (o.head layer.digest).status
            (o.head layer.digest).statusText),
          [Event.head (checkEp ++ layer.digest)])) := by
  refine ⟨fun h => uploadLayer_skip o layer file registry checkEp uploadEp h,
    fun h404 => ?_, fun hne h404 => ?_⟩
  · unfold uploadLayer
    rcases hl : (o.post layer.digest).location with _ | loc <;>
      simp [h404, hl] <;> split_ifs <;> simp
  · unfold uploadLayer
    rw [if_neg hne, if_pos h404]

/-- C4 witness: a 503 HEAD response aborts the layer with the error citing
that status. -/
theorem blob_check_dispatch_witness :
    uploadLayer
        { head := fun _ => { status := 503, statusText := "Service Unavailable" },
          post := fun _ => { status := 202 },
          putBlob := fun _ => { status := 201 },
          putManifest := { status := 201 },
          fileContents := fun _ => [] }
        { mediaType := "application/vnd.github.actions.package.layer.v1.zip",
          size := 5, digest := "sha256:abc" }
        { path := "f.zip", size := 5, sha256 := "abc" }
        "https://ghcr.io" "https://ghcr.io/v2/r/blobs/" "https://ghcr.io/v2/r/blobs/uploads/" =
      (.error (blobCheckErrorMsg "sha256:abc" 503 "Service Unavailable"),
        [Event.head "https://ghcr.io/v2/r/blobs/sha256:abc"]) := by
  have h := blob_check_dispatch
    { head := fun _ => { status := 503, statusText := "Service Unavailable" },
      post := fun _ => { status := 202 },
      putBlob := fun _ => { status := 201 },
      putManifest := { status := 201 },
      fileContents := fun _ => [] }
    { mediaType := "application/vnd.github.actions.package.layer.v1.zip",
      size := 5, digest := "sha256:abc" }
    { path := "f.zip", size := 5, sha256 := "abc" }
    "https://ghcr.io" "https://ghcr.io/v2/r/blobs/" "https://ghcr.io/v2/r/blobs/uploads/"
  have h3 := h.2.2 (by decide) (by decide)
  rw [h3]
  decide

/-- C2: a manifest PUT appears in a publish trace only when the layer phase
completed with every layer task successful, and then it is the very last
event, strictly after every layer-upload event; consequently, when any layer
task fails the manifest is never uploaded. -/
theorem manifest_put_after_layers (o : Oracle)
    (token registry repository releaseId semver : String)
    (zipFile tarFile : FileMetadata) (manifest : Manifest) (u : String)
    (hmem : Event.putManifest u ∈
      (publishOCIArtifact o token registry repository releaseId semver zipFile tarFile
        manifest).2) :
    ∃ results layerEvs,
      startLayerUploads o manifest.layers zipFile tarFile registry
          (resolveURL registry ("v2/" ++ repository ++ "/blobs/"))
          (resolveURL registry ("v2/" ++ repository ++ "/blobs/uploads/"))
        = (.ok results, layerEvs) ∧
      (∀ r ∈ results, r = .ok ()) ∧
      (publishOCIArtifact o token registry repository releaseId semver zipFile tarFile
          manifest).2
        = layerEvs ++ [Event.putManifest
            (resolveURL registry ("v2/" ++ repository ++ "/manifests/" ++ semver))] := by
  have hnot := startLayerUploads_no_putManifest o manifest.layers zipFile tarFile registry
    (resolveURL registry ("v2/" ++ repository ++ "/blobs/"))
    (resolveURL registry ("v2/" ++ repository ++ "/blobs/uploads/")) u
  simp only [publishOCIArtifact] at hmem ⊢
  rcases hS : startLayerUploads o manifest.layers zipFile tarFile registry
      (resolveURL registry ("v2/" ++ repository ++ "/blobs/"))
      (resolveURL registry ("v2/" ++ repository ++ "/blobs/uploads/")) with ⟨res, evs⟩
  rw [hS] at hmem hnot
  cases res with
  | error e => dsimp only at hmem hnot; exact absurd hmem hnot
  | ok results =>
    dsimp only at hmem hnot ⊢
    cases hF : firstLayerError results with
    | some e => simp only [hF] at hmem; exact absurd hmem hnot
    | none =>
      simp only [hF] at hmem ⊢
      refine ⟨results, evs, rfl, firstLayerError_eq_none hF, ?_⟩
      by_cases h : o.putManifest.status = 201 <;> simp [uploadManifest, h]

/-- C2 witness: in an all-blobs-fresh successful publish, the manifest PUT is
present and the theorem's conclusion holds at that input. -/
theorem manifest_put_after_layers_witness :
    ∃ results layerEvs,
      startLayerUploads allFreshOracle sampleManifest.layers sampleZip sampleTar
          "https://ghcr.io"
          (resolveURL "https://ghcr.io" ("v2/" ++ "test-org/test-repo" ++ "/blobs/"))
          (resolveURL "https://ghcr.io" ("v2/" ++ "test-org/test-repo" ++ "/blobs/uploads/"))
        = (.ok results, layerEvs) ∧
      (∀ r ∈ results, r = .ok ()) ∧
      (publishOCIArtifact allFreshOracle "token" "https://ghcr.io" "test-org/test-repo"
          "123" "1.2.3" sampleZip sampleTar sampleManifest).2
        = layerEvs ++ [Event.putManifest
            (resolveURL "https://ghcr.io" ("v2/" ++ "test-org/test-repo" ++ "/manifests/" ++ "1.2.3"))] :=
  manifest_put_after_layers allFreshOracle "token" "https://ghcr.io" "test-org/test-repo"
    "123" "1.2.3" sampleZip sampleTar sampleManifest
    (resolveURL "https://ghcr.io" ("v2/" ++ "test-org/test-repo" ++ "/manifests/" ++ "1.2.3"))
    (by decide)

/-- Count `countHead` distributes over append. -/
theorem countHead_append (xs ys : List Event) :
    countHead (xs ++ ys) = countHead xs + countHead ys := by
  simp [countHead, List.filter_append]

/-- Count `countPost` distributes over append. -/
theorem countPost_append (xs ys : List Event) :
    countPost (xs ++ ys) = countPost xs + countPost ys := by
  simp [countPost, List.filter_append]

/-- Count `countPutBlob` distributes over append. -/
theorem countPutBlob_append (xs ys : List Event) :
    countPutBlob (xs ++ ys) = countPutBlob xs + countPutBlob ys := by
  simp [countPutBlob, List.filter_append]

/-- Count `countPutManifest` distributes over append. -/
theorem countPutManifest_append (xs ys : List Event) :
    countPutManifest (xs ++ ys) = countPutManifest xs + countPutManifest ys := by
  simp [countPutManifest, List.filter_append]

/-- Trace filter `netCalls` distributes over append. -/
theorem netCalls_append (xs ys : List Event) :
    netCalls (xs ++ ys) = netCalls xs ++ netCalls ys := by
  simp [netCalls, List.filter_append]

/-- Per-layer request counts: when the HEAD answers 200 (blob exists) or 404
(fresh) and the POST / blob PUT succeed, the layer task succeeds with one HEAD
and — only in the fresh case — one POST and one blob PUT. -/
theorem uploadLayer_counts (o : Oracle) (layer : Layer) (file : FileMetadata)
    (registry checkEp uploadEp loc : String) (e : Bool)
    (hh : (o.head layer.digest).status = if e then 200 else 404)
    (hpost : (o.post layer.digest).status = 202)
    (hloc : (o.post layer.digest).location = some loc)
    (hput : (o.putBlob layer.digest).status = 201) :
    ∃ t, uploadLayer o layer file registry checkEp uploadEp = (.ok (), t) ∧
      countHead t = 1 ∧ countPost t = (if e then 0 else 1) ∧
      countPutBlob t = (if e then 0 else 1) ∧ countPutManifest t = 0 ∧
      (netCalls t).length = 1 + 2 * (if e then 0 else 1) := by
  cases e with
  | false =>
    refine ⟨_, uploadLayer_fresh o layer file registry checkEp uploadEp loc
      (by simpa using hh) hpost hloc hput, ?_⟩
    by_cases hs : file.size = 0 <;>
      simp [hs, countHead, countPost, countPutBlob, countPutManifest, netCalls,
        Event.isHead, Event.isPost, Event.isPutBlob, Event.isPutManifest, Event.isNetwork]
  | true =>
    refine ⟨_, uploadLayer_skip o layer file registry checkEp uploadEp
      (Or.inl (by simpa using hh)), ?_⟩
    simp [countHead, countPost, countPutBlob, countPutManifest, netCalls,
      Event.isHead, Event.isPost, Event.isPutBlob, Event.isPutManifest, Event.isNetwork]

/-- C5: for a publish of a three-layer manifest in which each layer's HEAD
existence check answers 200 (already present) or 404 (absent) and every
subsequent request succeeds, the publish succeeds after exactly 3 HEAD
requests, k POSTs, k blob PUTs and 1 manifest PUT — 3 + 2k + 1 network calls
in total — where k is the number of layers whose HEAD answered 404. -/
theorem publish_call_counts (o : Oracle)
    (token registry repository releaseId semver : String)
    (zipFile tarFile : FileMetadata) (manifest : Manifest)
    (l0 l1 l2 : Layer) (f0 f1 f2 : FileMetadata) (e0 e1 e2 : Bool) (loc : String)
    (hl : manifest.layers = [l0, l1, l2])
    (hr0 : resolveLayerFile l0 zipFile tarFile = some f0)
    (hr1 : resolveLayerFile l1 zipFile tarFile = some f1)
    (hr2 : resolveLayerFile l2 zipFile tarFile = some f2)
    (hh0 : (o.head l0.digest).status = if e0 then 200 else 404)
    (hh1 : (o.head l1.digest).status = if e1 then 200 else 404)
    (hh2 : (o.head l2.digest).status = if e2 then 200 else 404)
    (hpost : ∀ d, (o.post d).status = 202 ∧ (o.post d).location = some loc)
    (hblob : ∀ d, (o.putBlob d).status = 201)
    (hm : o.putManifest.status = 201) :
    (publishOCIArtifact o token registry repository releaseId semver zipFile tarFile
        manifest).1
      = .ok (resolveURL registry (repository ++ ":" ++ semver)) ∧
    countHead (publishOCIArtifact o token registry repository releaseId semver zipFile
        tarFile manifest).2 = 3 ∧
    countPost (publishOCIArtifact o token registry repository releaseId semver zipFile
        tarFile manifest).2
      = (if e0 then 0 else 1) + (if e1 then 0 else 1) + (if e2 then 0 else 1) ∧
    countPutBlob (publishOCIArtifact o token registry repository releaseId semver zipFile
        tarFile manifest).2
      = (if e0 then 0 else 1) + (if e1 then 0 else 1) + (if e2 then 0 else 1) ∧
    countPutManifest (publishOCIArtifact o token registry repository releaseId semver
        zipFile tarFile manifest).2 = 1 ∧
    (netCalls (publishOCIArtifact o token registry repository releaseId semver zipFile
        tarFile manifest).2).length
      = 3 + 2 * ((if e0 then 0 else 1) + (if e1 then 0 else 1) + (if e2 then 0 else 1)) + 1 := by
  obtain ⟨t0, hu0, hc0⟩ := uploadLayer_counts o l0 f0 registry
    (resolveURL registry ("v2/" ++ repository ++ "/blobs/"))
    (resolveURL registry ("v2/" ++ repository ++ "/blobs/uploads/")) loc e0 hh0
    (hpost l0.digest).1 (hpost l0.digest).2 (hblob l0.digest)
  obtain ⟨t1, hu1, hc1⟩ := uploadLayer_counts o l1 f1 registry
    (resolveURL registry ("v2/" ++ repository ++ "/blobs/"))
    (resolveURL registry ("v2/" ++ repository ++ "/blobs/uploads/")) loc e1 hh1
    (hpost l1.digest).1 (hpost l1.digest).2 (hblob l1.digest)
  obtain ⟨t2, hu2, hc2⟩ := uploadLayer_counts o l2 f2 registry
    (resolveURL registry ("v2/" ++ repository ++ "/blobs/"))
    (resolveURL registry ("v2/" ++ repository ++ "/blobs/uploads/")) loc e2 hh2
    (hpost l2.digest).1 (hpost l2.digest).2 (hblob l2.digest)
  have hSLU : startLayerUploads o manifest.layers zipFile tarFile registry
      (resolveURL registry ("v2/" ++ repository ++ "/blobs/"))
      (resolveURL registry ("v2/" ++ repository ++ "/blobs/uploads/"))
      = (.ok [.ok (), .ok (), .ok ()], t0 ++ (t1 ++ t2)) := by
    rw [hl]
    simp [startLayerUploads, hr0, hr1, hr2, hu0, hu1, hu2]
  have hpub : publishOCIArtifact o token registry repository releaseId semver zipFile
      tarFile manifest
      = (.ok (resolveURL registry (repository ++ ":" ++ semver)),
         (t0 ++ (t1 ++ t2)) ++ [Event.putManifest
           (resolveURL registry ("v2/" ++ repository ++ "/manifests/" ++ semver))]) := by
    simp only [publishOCIArtifact, hSLU]
    simp [firstLayerError, uploadManifest, hm]
  rw [hpub]
  obtain ⟨h0a, h0b, h0c, h0d, h0e⟩ := hc0
  obtain ⟨h1a, h1b, h1c, h1d, h1e⟩ := hc1
  obtain ⟨h2a, h2b, h2c, h2d, h2e⟩ := hc2
  refine ⟨rfl, ?_, ?_, ?_, ?_, ?_⟩
  · rw [countHead_append, countHead_append, countHead_append, h0a, h1a, h2a]
    simp [countHead, Event.isHead]
  · rw [countPost_append, countPost_append, countPost_append, h0b, h1b, h2b]
    have hz : countPost [Event.putManifest
        (resolveURL registry ("v2/" ++ repository ++ "/manifests/" ++ semver))] = 0 := by
      simp [countPost, Event.isPost]
    rw [hz]; omega
  · rw [countPutBlob_append, countPutBlob_append, countPutBlob_append, h0c, h1c, h2c]
    have hz : countPutBlob [Event.putManifest
        (resolveURL registry ("v2/" ++ repository ++ "/manifests/" ++ semver))] = 0 := by
      simp [countPutBlob, Event.isPutBlob]
    rw [hz]; omega
  · rw [countPutManifest_append, countPutManifest_append, countPutManifest_append,
      h0d, h1d, h2d]
    simp [countPutManifest, Event.isPutManifest]
  · rw [netCalls_append, netCalls_append, netCalls_append]
    simp only [List.length_append, h0e, h1e, h2e]
    have hz : (netCalls [Event.putManifest
        (resolveURL registry ("v2/" ++ repository ++ "/manifests/" ++ semver))]).length = 1 := by
      simp [netCalls, Event.isNetwork]
    rw [hz]
    omega

/-- C5 witness: with the config blob already present and the two archive blobs
absent (k = 2), the publish makes 3 HEAD + 2 POST + 2 blob PUT + 1 manifest
PUT = 8 network calls. -/
theorem publish_call_counts_witness :
    countHead (publishOCIArtifact mixedOracle "token" "https://ghcr.io" "test-org/test-repo"
        "123" "1.2.3" sampleZip sampleTar sampleManifest).2 = 3 ∧
    countPost (publishOCIArtifact mixedOracle "token" "https://ghcr.io" "test-org/test-repo"
        "123" "1.2.3" sampleZip sampleTar sampleManifest).2 = 2 ∧
    countPutBlob (publishOCIArtifact mixedOracle "token" "https://ghcr.io" "test-org/test-repo"
        "123" "1.2.3" sampleZip sampleTar sampleManifest).2 = 2 ∧
    countPutManifest (publishOCIArtifact mixedOracle "token" "https://ghcr.io" "test-org/test-repo"
        "123" "1.2.3" sampleZip sampleTar sampleManifest).2 = 1 ∧
    (netCalls (publishOCIArtifact mixedOracle "token" "https://ghcr.io" "test-org/test-repo"
        "123" "1.2.3" sampleZip sampleTar sampleManifest).2).length = 8 := by
  have h := publish_call_counts mixedOracle "token" "https://ghcr.io" "test-org/test-repo"
    "123" "1.2.3" sampleZip sampleTar sampleManifest
    sampleConfigLayer sampleTarLayer sampleZipLayer
    { path := "", size := 0, sha256 := sampleConfigLayer.digest } sampleTar sampleZip
    true false false "https://ghcr.io/v2/test-org/test-repo/blobs/uploads/1"
    rfl (by decide) (by decide) (by decide) (by decide) (by decide) (by decide)
    (fun _ => ⟨rfl, rfl⟩) (fun _ => rfl) rfl
  exact ⟨h.2.1, by simpa using h.2.2.1, by simpa using h.2.2.2.1, h.2.2.2.2.1,
    by simpa using h.2.2.2.2.2⟩

/-- C6 counterexample: for the config layer (uploaded with the synthetic
zero-size file), a fresh-registry upload sends the blob PUT with an *empty*
request body — `Buffer.alloc(0)` — which is not the two-byte JSON object. No
file is read, but the body the claim requires differs from the one sent. -/
theorem config_layer_body_counterexample :
    (uploadLayer allFreshOracle sampleConfigLayer
        { path := "", size := 0, sha256 := sampleConfigLayer.digest }
        "https://ghcr.io" "https://ghcr.io/v2/test-org/test-repo/blobs/"
        "https://ghcr.io/v2/test-org/test-repo/blobs/uploads/").2
      = [Event.head "https://ghcr.io/v2/test-org/test-repo/blobs/sha256:cfgsha",
         Event.post "https://ghcr.io/v2/test-org/test-repo/blobs/uploads/",
         Event.putBlob
           "https://ghcr.io/v2/test-org/test-repo/blobs/uploads/1?digest=sha256:cfgsha" []]
      ∧ ([] : Bytes) ≠ emptyObjectBytes := by
  decide

/-- C6 (amended): when the empty config layer is uploaded, the client passes
the synthetic file `{path: '', size: 0}`, so the blob PUT body is the empty
byte sequence (`Buffer.alloc(0)`) and no file is ever read from disk for that
layer. -/
theorem config_layer_empty_body (o : Oracle) (layer : Layer)
    (zipFile tarFile : FileMetadata) (registry checkEp uploadEp : String)
    (hmt : layer.mediaType = configMediaType) :
    resolveLayerFile layer zipFile tarFile
      = some { path := "", size := 0, sha256 := layer.digest } ∧
    (∀ p, Event.fsRead p ∉
      (uploadLayer o layer { path := "", size := 0, sha256 := layer.digest }
        registry checkEp uploadEp).2) ∧
    (∀ u b, Event.putBlob u b ∈
        (uploadLayer o layer { path := "", size := 0, sha256 := layer.digest }
          registry checkEp uploadEp).2 → b = []) := by
  refine ⟨?_, ?_, ?_⟩
  · unfold resolveLayerFile
    rw [hmt, if_neg (by decide), if_neg (by decide), if_pos rfl]
  · intro p
    unfold uploadLayer
    rcases hl : (o.post layer.digest).location with _ | loc <;>
      simp [hl] <;> split_ifs <;> simp
  · intro u b hb
    unfold uploadLayer at hb
    rcases hl : (o.post layer.digest).location with _ | loc <;>
      simp only [hl] at hb <;> split_ifs at hb <;> simp_all

/-- C6 witness: the amended statement at the sample config layer against the
fresh registry. -/
theorem config_layer_empty_body_witness :
    resolveLayerFile sampleConfigLayer sampleZip sampleTar
      = some { path := "", size := 0, sha256 := sampleConfigLayer.digest } ∧
    (∀ p, Event.fsRead p ∉
      (uploadLayer allFreshOracle sampleConfigLayer
        { path := "", size := 0, sha256 := sampleConfigLayer.digest }
        "https://ghcr.io" "https://ghcr.io/v2/test-org/test-repo/blobs/"
        "https://ghcr.io/v2/test-org/test-repo/blobs/uploads/").2) ∧
    (∀ u b, Event.putBlob u b ∈
        (uploadLayer allFreshOracle sampleConfigLayer
          { path := "", size := 0, sha256 := sampleConfigLayer.digest }
          "https://ghcr.io" "https://ghcr.io/v2/test-org/test-repo/blobs/"
          "https://ghcr.io/v2/test-org/test-repo/blobs/uploads/").2 → b = []) :=
  config_layer_empty_body allFreshOracle sampleConfigLayer sampleZip sampleTar
    "https://ghcr.io" "https://ghcr.io/v2/test-org/test-repo/blobs/"
    "https://ghcr.io/v2/test-org/test-repo/blobs/uploads/" rfl

/-- C7 counterexample: with an unknown-media-type layer in second position,
the publish rejects with the `Unknown media type` error but the first (tar)
layer's upload has already been started — three network calls occur (its HEAD,
POST, and blob PUT), so the rejection does not happen before any network
call. -/
theorem unknown_media_counterexample :
    (publishOCIArtifact allFreshOracle "token" "https://ghcr.io" "test-org/test-repo"
        "123" "1.2.3" sampleZip sampleTar badManifest).1
      = .error "Unknown media type application/json" ∧
    (netCalls (publishOCIArtifact allFreshOracle "token" "https://ghcr.io" "test-org/test-repo"
        "123" "1.2.3" sampleZip sampleTar badManifest).2).length = 3 ∧
    netCalls (publishOCIArtifact allFreshOracle "token" "https://ghcr.io" "test-org/test-repo"
        "123" "1.2.3" sampleZip sampleTar badManifest).2 ≠ [] := by
  decide

/-- Layer phase on a list whose first unknown-media layer follows `known`
resolvable layers: the phase fails with the `Unknown media type` error of that
layer, and when it is the very first layer the phase performs nothing. -/
theorem startLayerUploads_unknown (o : Oracle) (zipFile tarFile : FileMetadata)
    (registry cEp uEp : String) (bad : Layer) (rest : List Layer)
    (hbad : resolveLayerFile bad zipFile tarFile = none) :
    ∀ known : List Layer, (∀ l ∈ known, (resolveLayerFile l zipFile tarFile).isSome) →
      (startLayerUploads o (known ++ bad :: rest) zipFile tarFile registry cEp uEp).1
        = .error (unknownMediaTypeMsg bad.mediaType) ∧
      (known = [] →
        (startLayerUploads o (known ++ bad :: rest) zipFile tarFile registry cEp uEp).2
          = []) := by
  intro known
  induction known with
  | nil =>
    intro _
    refine ⟨?_, fun _ => ?_⟩ <;> simp [startLayerUploads, hbad]
  | cons l ls ih =>
    intro hk
    obtain ⟨f, hf⟩ := Option.isSome_iff_exists.mp (hk l (List.mem_cons_self l ls))
    have ihl := ih (fun x hx => hk x (List.mem_cons_of_mem l hx))
    rcases hR : startLayerUploads o (ls ++ bad :: rest) zipFile tarFile registry cEp uEp
      with ⟨rr, revs⟩
    rw [hR] at ihl
    refine ⟨?_, fun h => by simp at h⟩
    rcases rr with e | rs
    · have he : e = unknownMediaTypeMsg bad.mediaType := by simpa using ihl.1
      subst he
      rw [List.cons_append]
      simp [startLayerUploads, hf, hR]
    · exact absurd ihl.1 (by simp)

/-- C7 (amended): a manifest containing a layer whose media type is not the
tar+gzip, zip, or config one is rejected with the `Unknown media type` error
of the first such layer; the manifest is never uploaded and no layer at or
after the unknown one is started — in particular, when the unknown layer is
first in the list, no call at all is made. The layer uploads started before
the unknown layer was reached are not cancelled; their requests remain in the
trace. -/
theorem unknown_media_rejected (o : Oracle)
    (token registry repository releaseId semver : String)
    (zipFile tarFile : FileMetadata) (manifest : Manifest)
    (known : List Layer) (bad : Layer) (rest : List Layer)
    (hl : manifest.layers = known ++ bad :: rest)
    (hknown : ∀ l ∈ known, (resolveLayerFile l zipFile tarFile).isSome)
    (hbad : resolveLayerFile bad zipFile tarFile = none) :
    (publishOCIArtifact o token registry repository releaseId semver zipFile tarFile
        manifest).1
      = .error (unknownMediaTypeMsg bad.mediaType) ∧
    (∀ u, Event.putManifest u ∉
      (publishOCIArtifact o token registry repository releaseId semver zipFile tarFile
        manifest).2) ∧
    (known = [] →
      (publishOCIArtifact o token registry repository releaseId semver zipFile tarFile
        manifest).2 = []) := by
  have hS := startLayerUploads_unknown o zipFile tarFile registry
    (resolveURL registry ("v2/" ++ repository ++ "/blobs/"))
    (resolveURL registry ("v2/" ++ repository ++ "/blobs/uploads/")) bad rest hbad
    known hknown
  have hnoPM := fun u => startLayerUploads_no_putManifest o manifest.layers zipFile tarFile
    registry (resolveURL registry ("v2/" ++ repository ++ "/blobs/"))
    (resolveURL registry ("v2/" ++ repository ++ "/blobs/uploads/")) u
  simp only [publishOCIArtifact]
  rw [hl] at hnoPM ⊢
  rcases hR : startLayerUploads o (known ++ bad :: rest) zipFile tarFile registry
      (resolveURL registry ("v2/" ++ repository ++ "/blobs/"))
      (resolveURL registry ("v2/" ++ repository ++ "/blobs/uploads/")) with ⟨rr, revs⟩
  rw [hR] at hS hnoPM
  rcases rr with e | rs
  · have he : e = unknownMediaTypeMsg bad.mediaType := by simpa using hS.1
    subst he
    exact ⟨rfl, fun u => hnoPM u, fun hk => by simpa using hS.2 hk⟩
  · exact absurd hS.1 (by simp)

/-- C7 witness: the amended statement at the manifest whose second layer is
unknown. -/
theorem unknown_media_rejected_witness :
    (publishOCIArtifact allFreshOracle "token" "https://ghcr.io" "test-org/test-repo"
        "123" "1.2.3" sampleZip sampleTar badManifest).1
      = .error (unknownMediaTypeMsg badMediaLayer.mediaType) ∧
    (∀ u, Event.putManifest u ∉
      (publishOCIArtifact allFreshOracle "token" "https://ghcr.io" "test-org/test-repo"
        "123" "1.2.3" sampleZip sampleTar badManifest).2) ∧
    ([sampleTarLayer] = ([] : List Layer) →
      (publishOCIArtifact allFreshOracle "token" "https://ghcr.io" "test-org/test-repo"
        "123" "1.2.3" sampleZip sampleTar badManifest).2 = []) :=
  unknown_media_rejected allFreshOracle "token" "https://ghcr.io" "test-org/test-repo"
    "123" "1.2.3" sampleZip sampleTar badManifest [sampleTarLayer] badMediaLayer []
    rfl (by decide) (by decide)

/-- C8: the orchestrator strips at most one leading `v` from the release tag
(exactly one leading `v` is removed when present, nothing otherwise) and the
result must parse as a semantic version — `semverValid` embeds the acceptance
of the npm `semver.parse` the code calls, including its own tolerance of a
further leading `v`, whitespace trimming and length caps; when the parse
fails, the run fails with the message naming the offending tag string, before
any network call (its event trace is empty) and with no outputs. -/
theorem invalid_tag_rejected (env : RunEnv)
    (hrepo : env.repository ≠ "") (hev : env.eventName = "release")
    (hbad : semverValid (stripLeadingV env.releaseTag) = false) :
    (run env).failed = some (invalidSemverMsg env.releaseTag) ∧
    (run env).events = [] ∧ (run env).outputs = [] ∧
    (∀ s : String, stripLeadingV (String.mk ('v' :: s.toList)) = s) ∧
    (∀ s : String, s.toList.head? ≠ some 'v' → stripLeadingV s = s) := by
  have hrun : run env =
      { outputs := [], failed := some (invalidSemverMsg env.releaseTag),
        tracked := [], removed := [], events := [] } := by
    unfold run
    rw [if_neg hrepo, if_neg (by simp [hev]), if_pos (by simp [hbad])]
  refine ⟨by rw [hrun], by rw [hrun], by rw [hrun], ?_, ?_⟩
  · intro s
    cases s with
    | mk data => rfl
  · intro s hs
    unfold stripLeadingV
    rcases h : s.toList with _ | ⟨c, cs⟩
    · rfl
    · rw [h] at hs
      simp only [List.head?] at hs
      split
      · rename_i heq
        injection heq with hc _
        subst hc
        exact absurd rfl hs
      · rfl

/-- C8 witness: tag `v1.0` is rejected, naming `v1.0`, with no events and no
outputs. -/
theorem invalid_tag_rejected_witness :
    (run invalidTagEnv).failed = some (invalidSemverMsg "v1.0") ∧
    (run invalidTagEnv).events = [] ∧ (run invalidTagEnv).outputs = [] := by
  have h := invalid_tag_rejected invalidTagEnv (by decide) rfl (by decide)
  exact ⟨h.1, h.2.1, h.2.2.1⟩

/-- Cleanup keeps a list of non-empty paths unchanged. -/
theorem cleanupDirs_eq_self (dirs : List String) (h : ∀ d ∈ dirs, d ≠ "") :
    cleanupDirs dirs = dirs := by
  rw [cleanupDirs, List.filter_eq_self]
  intro a ha
  simpa using h a ha

/-- C3: whatever stage fails — or none — the final cleanup runs and removes
exactly the temp directories tracked during the run (the collaborators hand
back non-empty paths, which is what the two hypotheses state). -/
theorem cleanup_always_removes_tracked (env : RunEnv)
    (hc : ∀ p b, env.getConsolidatedDirectory = .ok (p, b) → p ≠ "")
    (ht : ∀ d, env.createTempDir = .ok d → d ≠ "") :
    (run env).removed = (run env).tracked := by
  unfold run
  dsimp only
  repeat' split
  all_goals simp_all [cleanupDirs]

/-- C3 witness: a run that fails at the manifest PUT still removes both
tracked temp directories. -/
theorem cleanup_always_removes_tracked_witness :
    (run failingPublishEnv).removed = (run failingPublishEnv).tracked := by
  have h := cleanup_always_removes_tracked failingPublishEnv
    (fun p b hp => by
      have hp' : (Except.ok ("/tmp/consolidated", true) : Except String (String × Bool))
          = .ok (p, b) := hp
      simp only [Except.ok.injEq, Prod.mk.injEq] at hp'
      rw [← hp'.1]
      decide)
    (fun d hd => by
      have hd' : (Except.ok "/tmp/archive" : Except String String) = .ok d := hd
      simp only [Except.ok.injEq] at hd'
      rw [← hd']
      decide)
  exact h

/-- C1: once the layer phase has succeeded and the manifest PUT has returned
201, the publish reads the `docker-content-digest` response header and
compares it byte-for-byte with the digest computed locally before any upload
began: equality is exactly the success condition, and any inequality fails the
publish with the message stating both the expected and the actual digest. -/
theorem digest_verified_after_put (o : Oracle)
    (token registry repository releaseId semver : String)
    (zipFile tarFile : FileMetadata) (manifest : Manifest) (expectedDigest : String)
    (results : List (Except String Unit)) (layerEvs : List Event)
    (hS : startLayerUploads o manifest.layers zipFile tarFile registry
        (resolveURL registry ("v2/" ++ repository ++ "/blobs/"))
        (resolveURL registry ("v2/" ++ repository ++ "/blobs/uploads/"))
      = (.ok results, layerEvs))
    (hok : firstLayerError results = none)
    (h201 : o.putManifest.status = 201) :
    ((o.putManifest.dockerContentDigest.getD "" = expectedDigest) ↔
      (publishOCIArtifactVerified o token registry repository releaseId semver zipFile
          tarFile manifest expectedDigest).1
        = .ok (resolveURL registry (repository ++ ":" ++ semver),
            o.putManifest.dockerContentDigest.getD "")) ∧
    (o.putManifest.dockerContentDigest.getD "" ≠ expectedDigest →
      (publishOCIArtifactVerified o token registry repository releaseId semver zipFile
          tarFile manifest expectedDigest).1
        = .error (digestMismatchMsg expectedDigest
            (o.putManifest.dockerContentDigest.getD ""))) := by
  have hV : verifyManifestDigest expectedDigest o.putManifest
      = if o.putManifest.dockerContentDigest.getD "" = expectedDigest
        then .ok (o.putManifest.dockerContentDigest.getD "")
        else .error (digestMismatchMsg expectedDigest
          (o.putManifest.dockerContentDigest.getD "")) := by
    unfold verifyManifestDigest
    rw [if_neg (by simp [h201])]
  simp only [publishOCIArtifactVerified, hS, hok, hV]
  by_cases heq : o.putManifest.dockerContentDigest.getD "" = expectedDigest <;>
    simp [heq]

/-- C1 witness: when the registry confirms `sha256:other` while the locally
computed digest is `sha256:manifestsha`, the publish fails with the message
stating both digests. -/
theorem digest_verified_after_put_witness :
    (publishOCIArtifactVerified mismatchOracle "token" "https://ghcr.io" "test-org/test-repo"
        "123" "1.2.3" sampleZip sampleTar sampleManifest "sha256:manifestsha").1
      = .error (digestMismatchMsg "sha256:manifestsha" "sha256:other") := by
  have h := digest_verified_after_put mismatchOracle "token" "https://ghcr.io"
    "test-org/test-repo" "123" "1.2.3" sampleZip sampleTar sampleManifest
    "sha256:manifestsha" [.ok (), .ok (), .ok ()]
    (startLayerUploads mismatchOracle sampleManifest.layers sampleZip sampleTar
      "https://ghcr.io"
      (resolveURL "https://ghcr.io" ("v2/" ++ "test-org/test-repo" ++ "/blobs/"))
      (resolveURL "https://ghcr.io" ("v2/" ++ "test-org/test-repo" ++ "/blobs/uploads/"))).2
    (by decide) (by decide) (by decide)
  simpa using h.2 (by decide)

/-- C9: on every successful run of the current orchestrator, the enterprise
case sets exactly the three outputs `package-url`, `package-manifest`,
`package-manifest-sha` and never invokes attestation generation or
attachment, while the non-enterprise case generates and attaches the
attestation and sets exactly those three outputs plus
`attestation-manifest-sha` and `attestation-url`. -/
theorem outputs_by_mode (env : MainEnv) (h : (runMain env).failed = none) :
    (runMain env).outputs.map Prod.fst
      = (if env.isEnterprise
         then ["package-url", "package-manifest", "package-manifest-sha"]
         else ["package-url", "package-manifest", "package-manifest-sha",
               "attestation-manifest-sha", "attestation-url"]) ∧
    (runMain env).attestGenerated = !env.isEnterprise ∧
    (runMain env).attestAttached = !env.isEnterprise := by
  unfold runMain at h ⊢
  by_cases h1 : strLeadsWith env.ref "refs/tags/" = true
  case neg => simp [h1] at h
  by_cases h2 : semverValid (stripLeadingV (refTagName env.ref)) = true
  case neg => simp [h1, h2] at h
  rcases hchk : env.ensureTagAndRefCheckedOut with e | u
  · simp [h1, h2, hchk] at h
  rcases hstg : env.stageAndArchive with e | ar
  · simp [h1, h2, hchk, hstg] at h
  rcases hpub : env.publish with e | pr
  · simp [h1, h2, hchk, hstg, hpub] at h
  rcases pr with ⟨pkgURL, pd⟩
  by_cases hd : pd = env.expectedDigest
  case neg => simp [h1, h2, hchk, hstg, hpub, hd] at h
  cases hE : env.isEnterprise with
  | true => simp [h1, h2, hchk, hstg, hpub, hd, hE]
  | false =>
    rcases hgen : env.generateAttestation with e | bundle
    · simp [h1, h2, hchk, hstg, hpub, hd, hE, hgen] at h
    rcases hatt : env.attachArtifact with e | ad
    · simp [h1, h2, hchk, hstg, hpub, hd, hE, hgen, hatt] at h
    simp [h1, h2, hchk, hstg, hpub, hd, hE, hgen, hatt]

/-- C9 witness: a successful non-enterprise run sets exactly the five
outputs, with attestation generated and attached. -/
theorem outputs_by_mode_witness :
    (runMain
        { isEnterprise := false, ref := "refs/tags/v1.2.3",
          ensureTagAndRefCheckedOut := .ok (),
          stageAndArchive := .ok (sampleTar, sampleZip),
          serializedManifest := "manifest-json",
          expectedDigest := "sha256:my-test-digest",
          publish := .ok ("https://ghcr.io/v2/test-org/test-repo:1.2.3", "sha256:my-test-digest"),
          generateAttestation := .ok ⟨"test-attestation-id", "test", "bundle"⟩,
          attachArtifact := .ok ("sha256:my-test-attestation-digest",
            "ghcr.io/v2/test-org/test-package/manifests/sha256:my-test-attestation-digest") }).outputs.map
        Prod.fst
      = ["package-url", "package-manifest", "package-manifest-sha",
         "attestation-manifest-sha", "attestation-url"] := by
  have h := outputs_by_mode
    { isEnterprise := false, ref := "refs/tags/v1.2.3",
      ensureTagAndRefCheckedOut := .ok (),
      stageAndArchive := .ok (sampleTar, sampleZip),
      serializedManifest := "manifest-json",
      expectedDigest := "sha256:my-test-digest",
      publish := .ok ("https://ghcr.io/v2/test-org/test-repo:1.2.3", "sha256:my-test-digest"),
      generateAttestation := .ok ⟨"test-attestation-id", "test", "bundle"⟩,
      attachArtifact := .ok ("sha256:my-test-attestation-digest",
        "ghcr.io/v2/test-org/test-package/manifests/sha256:my-test-attestation-digest") }
    (by decide)
  simpa using h.1

/-- C10: a successful publish returns the URL obtained by resolving
`<repository>:<semver>` against the registry base URL; the URL is computed
locally, so any two successful publishes against the same registry,
repository and version return the same URL whatever the registry responded
and whatever files or manifest were uploaded. -/
theorem package_url_local (o o2 : Oracle)
    (token token2 registry repository releaseId releaseId2 semver : String)
    (zipFile tarFile zipFile2 tarFile2 : FileMetadata) (manifest manifest2 : Manifest) :
    (∀ url evs,
      publishOCIArtifact o token registry repository releaseId semver zipFile tarFile
          manifest = (.ok url, evs) →
      url = resolveURL registry (repository ++ ":" ++ semver)) ∧
    (∀ url evs url2 evs2,
      publishOCIArtifact o token registry repository releaseId semver zipFile tarFile
          manifest = (.ok url, evs) →
      publishOCIArtifact o2 token2 registry repository releaseId2 semver zipFile2 tarFile2
          manifest2 = (.ok url2, evs2) →
      url = url2) := by
  have key : ∀ (o' : Oracle) (token' releaseId' : String) (zf tf : FileMetadata)
      (m : Manifest) (url : String) (evs : List Event),
      publishOCIArtifact o' token' registry repository releaseId' semver zf tf m
        = (.ok url, evs) →
      url = resolveURL registry (repository ++ ":" ++ semver) := by
    intro o' token' releaseId' zf tf m url evs hp
    simp only [publishOCIArtifact] at hp
    rcases hS : startLayerUploads o' m.layers zf tf registry
        (resolveURL registry ("v2/" ++ repository ++ "/blobs/"))
        (resolveURL registry ("v2/" ++ repository ++ "/blobs/uploads/")) with ⟨rr, revs⟩
    rw [hS] at hp
    rcases rr with e | results
    · simp at hp
    dsimp only at hp
    rcases hF : firstLayerError results with _ | e
    case some => simp [hF] at hp
    simp only [hF] at hp
    rcases hM : (uploadManifest o'
        (resolveURL registry ("v2/" ++ repository ++ "/manifests/" ++ semver))).1 with e | a
    · simp [hM] at hp
    simp only [hM] at hp
    have := congrArg Prod.fst hp
    simpa using this.symm
  exact ⟨key o token releaseId zipFile tarFile manifest,
    fun url evs url2 evs2 h1 h2 =>
      (key o token releaseId zipFile tarFile manifest url evs h1).trans
        (key o2 token2 releaseId2 zipFile2 tarFile2 manifest2 url2 evs2 h2).symm⟩

/-- C10 witness: the all-fresh successful publish returns exactly the locally
resolved `<repository>:<semver>` URL. -/
theorem package_url_local_witness :
    (publishOCIArtifact allFreshOracle "token" "https://ghcr.io" "test-org/test-repo"
        "123" "1.2.3" sampleZip sampleTar sampleManifest).1
      = .ok (resolveURL "https://ghcr.io" ("test-org/test-repo" ++ ":" ++ "1.2.3")) := by
  have hp : publishOCIArtifact allFreshOracle "token" "https://ghcr.io" "test-org/test-repo"
      "123" "1.2.3" sampleZip sampleTar sampleManifest
      = (.ok "https://ghcr.io/test-org/test-repo:1.2.3",
         (publishOCIArtifact allFreshOracle "token" "https://ghcr.io" "test-org/test-repo"
           "123" "1.2.3" sampleZip sampleTar sampleManifest).2) := by
    decide
  have hu := (package_url_local allFreshOracle allFreshOracle "token" "token" "https://ghcr.io"
    "test-org/test-repo" "123" "123" "1.2.3" sampleZip sampleTar sampleZip sampleTar
    sampleManifest sampleManifest).1 "https://ghcr.io/test-org/test-repo:1.2.3" _ hp
  rw [hp, ← hu]

end PublishImmutableAction
